import Mathlib

/-!
Shallow embedding of the mock Zork world-simulation engine
(`src/mock_environment.py`, class `MockZorkEnvironment`).

Rooms, object states and the player/session state are translated field by
field from `__init__`; each `_handle_*` method becomes a Lean function from
a game state (plus the parsed object/command) to the pair of the response
text and the successor state; `step` wraps dispatch with the move-ceiling
check and the darkness/grue hazard exactly as the Python does.
-/

namespace Zork

/-- One room of the static world table: description text, exit map
(direction name to destination, `none` destination = blocked exit),
and the object identifiers nominally anchored in the room. -/
structure Room where
  description : String
  exits : List (String × Option String)
  objects : List String
deriving DecidableEq

/-- The mutable per-object state table (`self.object_states`), with the
dict-of-dicts flattened into one field per stored key. -/
structure ObjectStates where
  mailbox_open : Bool
  mailbox_location : String
  leaflet_read : Bool
  leaflet_location : String
  lamp_on : Bool
  lamp_location : String
  sword_location : String
  trophy_case_open : Bool
  trophy_case_location : String
  rug_moved : Bool
  rug_location : String
  egg_location : String
  water_location : String
deriving DecidableEq

/-- The whole mutable state of a `MockZorkEnvironment` instance. -/
structure GameState where
  current_location : String
  inventory : List String
  score : Nat
  moves : Nat
  max_moves : Nat
  game_over : Bool
  object_states : ObjectStates
  locations : List (String × Room)
  grue_warning_given : Bool
deriving DecidableEq

/-- The response envelope returned by `reset`/`step`. -/
structure StepResult where
  observation : String
  score : Nat
  done : Bool
  moves : Nat
  valid_actions : List String
  inventory : String
  location : String
deriving DecidableEq

/-- `self.object_states` as built in `__init__`. -/
def initObjectStates : ObjectStates :=
  { mailbox_open := false, mailbox_location := "west_of_house"
    leaflet_read := false, leaflet_location := "in_mailbox"
    lamp_on := false, lamp_location := "living_room"
    sword_location := "living_room"
    trophy_case_open := true, trophy_case_location := "living_room"
    rug_moved := false, rug_location := "living_room"
    egg_location := "forest"
    water_location := "stream" }

/-- `self.locations` as built in `__init__`.  The `living_room` `down`
exit is `"cellar" if rug moved else None`, evaluated against the freshly
built object states (where the rug is unmoved). -/
def initLocations : List (String × Room) :=
  [ ("west_of_house",
     { description := "You are standing in an open field west of a white house, with a boarded front door."
       exits := [("north", some "north_of_house"), ("south", some "south_of_house"),
                 ("west", some "forest"), ("east", some "behind_house")]
       objects := ["mailbox"] }),
    ("north_of_house",
     { description := "You are facing the north side of a white house. There is no door here, and all the windows are boarded up."
       exits := [("west", some "west_of_house"), ("east", some "behind_house")]
       objects := [] }),
    ("south_of_house",
     { description := "You are facing the south side of a white house. There is no door here, and all the windows are boarded."
       exits := [("west", some "west_of_house"), ("east", some "behind_house")]
       objects := [] }),
    ("behind_house",
     { description := "You are behind the white house. A path leads into the forest to the east. In one corner of the house there is a small window which is slightly ajar."
       exits := [("west", some "west_of_house"), ("north", some "north_of_house"),
                 ("south", some "south_of_house"), ("east", some "forest"),
                 ("window", some "kitchen")]
       objects := [] }),
    ("kitchen",
     { description := "You are in the kitchen of the white house. A table seems to have been used recently for the preparation of food. A passage leads to the west and a dark staircase can be seen leading upward. To the east is a small window which is open."
       exits := [("west", some "living_room"), ("up", some "upstairs"), ("window", some "behind_house")]
       objects := ["table", "sack"] }),
    ("living_room",
     { description := "You are in the living room. There is a doorway to the east, a wooden door with strange gothic lettering to the west, which appears to be nailed shut, and a large oriental rug in the center of the room."
       exits := [("east", some "kitchen"), ("west", none),
                 ("down", if initObjectStates.rug_moved then some "cellar" else none)]
       objects := ["lamp", "sword", "trophy_case", "rug"] }),
    ("cellar",
     { description := "You are in a dark and damp cellar with a narrow passageway leading north, and a crawlway to the south. On the west is the bottom of a steep metal ramp which is unclimbable."
       exits := [("north", some "troll_room"), ("south", some "east_of_chasm"), ("up", some "living_room")]
       objects := [] }),
    ("forest",
     { description := "This is a forest, with trees in all directions. To the east, there appears to be sunlight."
       exits := [("west", some "west_of_house"), ("east", some "clearing"),
                 ("north", some "clearing"), ("south", some "forest")]
       objects := ["egg"] }),
    ("clearing",
     { description := "You are in a small clearing in a well marked forest path that extends to the east and west."
       exits := [("west", some "forest"), ("east", some "canyon_view")]
       objects := [] }),
    ("canyon_view",
     { description := "You are at the top of the Great Canyon on its west wall. From here there is a marvelous view of the canyon and parts of the Frigid River upstream. Across the canyon, the walls of the White Cliffs join the mighty ramparts of the Flathead Mountains to the east."
       exits := [("west", some "clearing"), ("down", some "rocky_ledge")]
       objects := [] }),
    ("rocky_ledge",
     { description := "You are on a ledge in the middle of the Great Canyon. From here there is a spectacular view of the canyon and the Frigid River below. The canyon wall is too steep to climb, but a chimney leads upward."
       exits := [("up", some "canyon_view")]
       objects := ["nest"] }),
    ("stream",
     { description := "You are in a small chamber filled with water. The only exit is to the west."
       exits := [("west", some "reservoir")]
       objects := ["water"] }) ]

/-- `self.dark_locations = {"cellar"}`. -/
def dark_locations : List String := ["cellar"]

/-- The state built by `__init__` (also the state after `reset`, which
re-runs `__init__` and re-zeroes `moves`/`score`/`game_over`). -/
def initState : GameState :=
  { current_location := "west_of_house"
    inventory := []
    score := 0
    moves := 0
    max_moves := 1000
    game_over := false
    object_states := initObjectStates
    locations := initLocations
    grue_warning_given := false }

/-- `self.locations[loc]`, total with an inert default room. -/
def lookupRoom (s : GameState) (loc : String) : Room :=
  (s.locations.lookup loc).getD { description := "", exits := [], objects := [] }

/-- `self.object_states.get(obj, {}).get("location", "")`. -/
def objLocation (st : ObjectStates) (obj : String) : String :=
  if obj == "mailbox" then st.mailbox_location
  else if obj == "leaflet" then st.leaflet_location
  else if obj == "lamp" then st.lamp_location
  else if obj == "sword" then st.sword_location
  else if obj == "trophy_case" then st.trophy_case_location
  else if obj == "rug" then st.rug_location
  else if obj == "egg" then st.egg_location
  else if obj == "water" then st.water_location
  else ""

/-- `_has_light`: `"lamp" in self.inventory and self.object_states["lamp"]["on"]`. -/
def hasLight (s : GameState) : Bool :=
  s.inventory.contains "lamp" && s.object_states.lamp_on

/-- The condition `self.current_location in self.dark_locations and not
self._has_light()` shared by the description/visibility/hazard checks. -/
def darkNoLight (s : GameState) : Bool :=
  dark_locations.contains s.current_location && !(hasLight s)

/-- Python `str.lower()` (ASCII range, which covers every game command),
as a structurally recursive map over the character list. -/
def pyLower (s : String) : String :=
  String.mk (s.data.map Char.toLower)

/-- Helper for `pySplit`: walk the characters, accumulating the current
word reversed; whitespace closes a word, empty pieces are dropped. -/
def pySplitAux : List Char → List Char → List String
  | [], acc => if acc.isEmpty then [] else [String.mk acc.reverse]
  | c :: cs, acc =>
      if c.isWhitespace then
        if acc.isEmpty then pySplitAux cs []
        else String.mk acc.reverse :: pySplitAux cs []
      else pySplitAux cs (c :: acc)

/-- Python `str.split()`: split on whitespace runs, dropping empty pieces. -/
def pySplit (s : String) : List String :=
  pySplitAux s.data []

/-- Python `str.strip()`: drop whitespace from both ends. -/
def pyStrip (s : String) : String :=
  String.mk (((s.data.dropWhile Char.isWhitespace).reverse.dropWhile Char.isWhitespace).reverse)

/-- `separator.join(pieces)`. -/
def pyJoin (sep : String) : List String → String
  | [] => ""
  | [x] => x
  | x :: y :: rest => x ++ sep ++ pyJoin sep (y :: rest)

/-- Sublist test on character lists, for Python's `in` on strings. -/
def hasSub (l pat : List Char) : Bool :=
  pat.isPrefixOf l ||
    match l with
    | [] => false
    | _ :: t => hasSub t pat

/-- Python `pat in s` for strings: `pat` occurs as a contiguous substring. -/
def strContains (s pat : String) : Bool :=
  hasSub s.data pat.data

/-- `get_inventory`: the formatted carried-items string. -/
def get_inventory (s : GameState) : String :=
  if s.inventory.isEmpty then "You are not carrying anything."
  else
    pyStrip ("You are carrying:\n" ++
      String.join (s.inventory.map (fun item =>
        if item == "lamp" then
          "  A brass lamp" ++
            (if s.object_states.lamp_on then " (providing light)" else " (turned off)") ++ "\n"
        else if item == "sword" then "  A sword of Elvish workmanship\n"
        else if item == "leaflet" then "  A small leaflet\n"
        else if item == "egg" then "  A jewel-encrusted egg\n"
        else "  " ++ item ++ "\n")))

/-- `_get_location_description`: room description plus visible-object
annotations, or the pitch-black line in an unlit dark room. -/
def locationDescription (s : GameState) : String :=
  if darkNoLight s then "It is pitch black."
  else
    let room := lookupRoom s s.current_location
    let visible_objects := room.objects.flatMap (fun obj =>
      if objLocation s.object_states obj == s.current_location then
        if obj == "mailbox" then
          ("There is a " ++ (if s.object_states.mailbox_open then "open" else "closed") ++
            " mailbox here.") ::
          (if s.object_states.mailbox_open &&
              s.object_states.leaflet_location == "in_mailbox" then
            ["There is a small leaflet in the mailbox."]
          else [])
        else if obj == "lamp" then
          ["There is a brass lamp here (" ++
            (if s.object_states.lamp_on then "lit" else "turned off") ++ ")."]
        else if obj == "sword" then
          ["There is a sword of Elvish workmanship here."]
        else if obj == "trophy_case" then
          ["There is a trophy case here."]
        else if obj == "rug" then
          ["There is a large oriental rug " ++
            (if s.object_states.rug_moved then "moved aside"
             else "lying in the center of the room") ++ "."]
        else ["There is a " ++ obj ++ " here."]
      else [])
    if visible_objects.isEmpty then room.description
    else room.description ++ "\n\n" ++ pyJoin "\n" visible_objects

/-- `_get_visible_objects`: objects recorded in the current room, plus the
leaflet when it sits in the open mailbox; nothing in an unlit dark room. -/
def visibleObjects (s : GameState) : List String :=
  if darkNoLight s then []
  else
    let visible_objects := (lookupRoom s s.current_location).objects.filter
      (fun obj => objLocation s.object_states obj == s.current_location)
    if visible_objects.contains "mailbox" && s.object_states.mailbox_open &&
        s.object_states.leaflet_location == "in_mailbox" then
      visible_objects ++ ["leaflet"]
    else visible_objects

/-- `get_valid_actions`: movement phrases for open exits, per-visible-object
actions, and the constant tail. -/
def get_valid_actions (s : GameState) : List String :=
  let movement := (lookupRoom s s.current_location).exits.flatMap (fun de =>
    match de.2 with
    | some _ =>
        if de.1 == "window" then ["enter window", "go through window"]
        else ["go " ++ de.1, de.1]
    | none => [])
  let objActions := (visibleObjects s).flatMap (fun obj =>
    ["examine " ++ obj, "look at " ++ obj] ++
    (if !(s.inventory.contains obj) then ["take " ++ obj, "get " ++ obj] else []) ++
    (if s.inventory.contains obj then ["drop " ++ obj] else []) ++
    (if obj == "mailbox" then ["open " ++ obj, "close " ++ obj] else []) ++
    (if obj == "lamp" && s.inventory.contains obj then
      ["turn on " ++ obj, "turn off " ++ obj] else []) ++
    (if obj == "leaflet" &&
        (s.inventory.contains obj ||
          (s.object_states.mailbox_open &&
            s.object_states.leaflet_location == "in_mailbox")) then
      ["read " ++ obj] else []) ++
    (if obj == "rug" then ["move " ++ obj, "lift " ++ obj] else []))
  movement ++ objActions ++ ["look", "inventory", "i", "help", "score"]

/-- `_handle_movement`. -/
def handle_movement (s : GameState) (action : String) : String × GameState :=
  let words := pySplit (pyLower action)
  let direction := words.headD ""
  if ["go", "move", "walk", "enter"].contains direction && words.length ≤ 1 then
    ("Go where?", s)
  else
    let direction :=
      if ["go", "move", "walk", "enter"].contains direction then words.getLastD ""
      else direction
    let direction :=
      if (words.contains "enter" || words.contains "through") && words.contains "window" then
        "window"
      else direction
    match (lookupRoom s s.current_location).exits.lookup direction with
    | none => ("You can't go that way.", s)
    | some none =>
        if direction == "west" && s.current_location == "living_room" then
          ("The door is nailed shut.", s)
        else if direction == "down" && s.current_location == "living_room" then
          ("You can't go that way.", s)
        else ("You can't go that way.", s)
    | some (some destination) =>
        let s' := { s with current_location := destination }
        (locationDescription s', s')

/-- `_handle_examine`. -/
def handle_examine (s : GameState) (obj : String) : String × GameState :=
  if !((visibleObjects s).contains obj) && !(s.inventory.contains obj) then
    ("You don't see that here.", s)
  else if obj == "mailbox" then
    (("It's a small " ++ (if s.object_states.mailbox_open then "open" else "closed") ++
        " mailbox.") ++
      (if s.object_states.mailbox_open &&
          s.object_states.leaflet_location == "in_mailbox" then
        " There is a small leaflet inside."
      else ""), s)
  else if obj == "leaflet" then
    ("A small leaflet. It appears to contain instructions.", s)
  else if obj == "lamp" then
    ("It's a brass lamp. It is currently " ++
      (if s.object_states.lamp_on then "on" else "off") ++ ".", s)
  else if obj == "sword" then
    ("The sword is made of Elvish workmanship with strange runes on the blade.", s)
  else if obj == "trophy_case" then
    ("The trophy case is empty and waiting for treasures.", s)
  else if obj == "rug" then
    ("It's a large oriental rug, " ++
      (if s.object_states.rug_moved then "moved aside, revealing a trapdoor"
       else "lying in the center of the room") ++ ".", s)
  else if obj == "egg" then
    ("The egg is covered with fine gold inlay, and is extremely valuable.", s)
  else if obj == "water" then
    ("The water is clear and refreshing.", s)
  else
    ("You see nothing special about the " ++ obj ++ ".", s)

/-- `_handle_take`. -/
def handle_take (s : GameState) (obj : String) : String × GameState :=
  if !((visibleObjects s).contains obj) then ("You don't see that here.", s)
  else if s.inventory.contains obj then ("You're already carrying that.", s)
  else if ["mailbox", "trophy_case", "rug"].contains obj then ("You can't take that.", s)
  else if obj == "leaflet" && s.object_states.leaflet_location == "in_mailbox" &&
      !(s.object_states.mailbox_open) then
    ("The mailbox is closed.", s)
  else if obj == "leaflet" then
    ("Taken.",
     { s with object_states := { s.object_states with leaflet_location := "inventory" }
              inventory := s.inventory ++ [obj] })
  else if obj == "lamp" then
    ("Taken.",
     { s with object_states := { s.object_states with lamp_location := "inventory" }
              inventory := s.inventory ++ [obj] })
  else if obj == "sword" then
    ("Taken.",
     { s with object_states := { s.object_states with sword_location := "inventory" }
              inventory := s.inventory ++ [obj] })
  else if obj == "egg" then
    ("Taken.",
     { s with object_states := { s.object_states with egg_location := "inventory" }
              score := s.score + 5
              inventory := s.inventory ++ [obj] })
  else if obj == "water" then
    ("The water slips through your fingers.", s)
  else ("You can't take that.", s)

/-- `_handle_drop`. -/
def handle_drop (s : GameState) (obj : String) : String × GameState :=
  if !(s.inventory.contains obj) then ("You're not carrying that.", s)
  else
    let inv := s.inventory.erase obj
    if obj == "leaflet" then
      ("Dropped.",
       { s with inventory := inv
                object_states :=
                  { s.object_states with leaflet_location := s.current_location } })
    else if obj == "lamp" then
      ("Dropped.",
       { s with inventory := inv
                object_states :=
                  { s.object_states with lamp_location := s.current_location } })
    else if obj == "sword" then
      ("Dropped.",
       { s with inventory := inv
                object_states :=
                  { s.object_states with sword_location := s.current_location } })
    else if obj == "egg" then
      ("Dropped.",
       { s with inventory := inv
                object_states :=
                  { s.object_states with egg_location := s.current_location } })
    else ("Dropped.", { s with inventory := inv })

/-- `_handle_open`. -/
def handle_open (s : GameState) (obj : String) : String × GameState :=
  if !((visibleObjects s).contains obj) && !(s.inventory.contains obj) then
    ("You don't see that here.", s)
  else if obj == "mailbox" then
    if s.object_states.mailbox_open then ("It's already open.", s)
    else
      let s' := { s with object_states := { s.object_states with mailbox_open := true } }
      (if s.object_states.leaflet_location == "in_mailbox" then
        "Opening the mailbox reveals a small leaflet."
      else "Opened.", s')
  else if obj == "trophy_case" then ("The trophy case is already open.", s)
  else ("You can't open that.", s)

/-- `_handle_close`. -/
def handle_close (s : GameState) (obj : String) : String × GameState :=
  if !((visibleObjects s).contains obj) && !(s.inventory.contains obj) then
    ("You don't see that here.", s)
  else if obj == "mailbox" then
    if !(s.object_states.mailbox_open) then ("It's already closed.", s)
    else
      ("Closed.", { s with object_states := { s.object_states with mailbox_open := false } })
  else ("You can't close that.", s)

/-- `_handle_turn_on_lamp`. -/
def handle_turn_on_lamp (s : GameState) : String × GameState :=
  if !(s.inventory.contains "lamp") then ("You're not carrying that.", s)
  else if s.object_states.lamp_on then ("The lamp is already on.", s)
  else
    ("The lamp is now on and providing light.",
     { s with object_states := { s.object_states with lamp_on := true } })

/-- `_handle_turn_off_lamp`. -/
def handle_turn_off_lamp (s : GameState) : String × GameState :=
  if !(s.inventory.contains "lamp") then ("You're not carrying that.", s)
  else if !(s.object_states.lamp_on) then ("The lamp is already off.", s)
  else
    let s' := { s with object_states := { s.object_states with lamp_on := false } }
    (if dark_locations.contains s'.current_location then
      "The lamp is now off. It is pitch black."
    else "The lamp is now off.", s')

/-- `_handle_read`. -/
def handle_read (s : GameState) (obj : String) : String × GameState :=
  if !((visibleObjects s).contains obj) && !(s.inventory.contains obj) then
    ("You don't see that here.", s)
  else if obj == "leaflet" then
    let s' :=
      if !(s.object_states.leaflet_read) then
        { s with object_states := { s.object_states with leaflet_read := true }
                 score := s.score + 1 }
      else s
    ("WELCOME TO ZORK!\n\n" ++
      "ZORK is a game of adventure, danger, and low cunning. " ++
      "In it you will explore some of the most amazing territory ever seen by mortals. " ++
      "No computer should be without one!", s')
  else
    ("There's nothing written on the " ++ obj ++ ".", s)

/-- Python dict assignment on an association list: replace the first (and,
here, only) binding of the key, or append the binding when absent. -/
def setAssoc {α : Type} (xs : List (String × α)) (k : String) (v : α) :
    List (String × α) :=
  if (xs.lookup k).isSome then
    xs.map (fun p => if p.1 == k then (p.1, v) else p)
  else xs ++ [(k, v)]

/-- `self.locations[room]["exits"][direction] = destination`. -/
def setExit (locs : List (String × Room)) (room direction : String)
    (destination : Option String) : List (String × Room) :=
  locs.map (fun p =>
    if p.1 == room then (p.1, { p.2 with exits := setAssoc p.2.exits direction destination })
    else p)

/-- `_handle_move_rug`. -/
def handle_move_rug (s : GameState) : String × GameState :=
  if !((visibleObjects s).contains "rug") then ("You don't see that here.", s)
  else if s.object_states.rug_moved then ("The rug has already been moved aside.", s)
  else
    ("You move the rug aside, revealing a closed trapdoor in the floor.",
     { s with
        object_states := { s.object_states with rug_moved := true, rug_location := "living_room" }
        score := s.score + 2
        locations := setExit s.locations "living_room" "down" (some "cellar") })

/-- The static help text. -/
def helpText : String :=
  "Some useful commands:\n" ++
  "- Movement: north, south, east, west, up, down\n" ++
  "- Actions: look, examine [object], take [object], drop [object]\n" ++
  "- Inventory: inventory or i\n" ++
  "- Object interaction: open [object], close [object], read [object]\n" ++
  "- Lamp: turn on lamp, turn off lamp\n" ++
  "- Other: score, help"

/-- `_process_action`: verb classification and dispatch. -/
def processAction (s : GameState) (action : String) : String × GameState :=
  let words := pySplit (pyLower action)
  match words with
  | [] => ("I don't understand that.", s)
  | verb :: rest =>
    let obj := if rest.isEmpty then "" else words.getLastD ""
    if (verb == "move" || verb == "lift") && obj == "rug" then handle_move_rug s
    else if ["go", "walk", "north", "south", "east", "west", "up", "down", "enter"].contains verb
        || ((lookupRoom s s.current_location).exits.lookup verb).isSome then
      handle_movement s action
    else if ["look", "l"].contains verb && words.length == 1 then
      (locationDescription s, s)
    else if ["examine", "look"].contains verb && obj ≠ "" && obj ≠ "at" then
      handle_examine s obj
    else if ["inventory", "i"].contains verb then (get_inventory s, s)
    else if ["take", "get", "pick"].contains verb then handle_take s obj
    else if ["drop", "put"].contains verb then handle_drop s obj
    else if verb == "open" then handle_open s obj
    else if verb == "close" then handle_close s obj
    else if verb == "turn" && words.length > 1 then
      if words.getD 1 "" == "on" && obj == "lamp" then handle_turn_on_lamp s
      else if words.getD 1 "" == "off" && obj == "lamp" then handle_turn_off_lamp s
      else ("I don't understand that command.", s)
    else if verb == "read" then handle_read s obj
    else if (verb == "move" || verb == "lift") && obj == "rug" then handle_move_rug s
    else if verb == "score" then
      ("Your score is " ++ toString s.score ++ " (in " ++ toString s.moves ++ " moves).", s)
    else if verb == "help" then (helpText, s)
    else ("I don't understand that command.", s)

/-- The one-time grue warning line. -/
def grueWarning : String :=
  "It is pitch black. You are likely to be eaten by a grue."

/-- The grue death message. -/
def grueDeath : String :=
  "Oh, no! You have walked into the slavering fangs of a lurking grue!\n\n***** You have died *****"

/-- The fixed move-ceiling message. -/
def exceededMessage : String := "You have exceeded the maximum number of moves."

/-- Envelope assembly shared by the normal return of `step`. -/
def mkResult (observation : String) (s : GameState) : StepResult × GameState :=
  ({ observation := observation
     score := s.score
     done := s.game_over
     moves := s.moves
     valid_actions := get_valid_actions s
     inventory := get_inventory s
     location := s.current_location }, s)

/-- `step`: increment the move counter, enforce the ceiling, dispatch
through `_process_action`, apply the darkness/grue hazard, and assemble
the response envelope. -/
def step (s0 : GameState) (action : String) : StepResult × GameState :=
  let s1 := { s0 with moves := s0.moves + 1 }
  if s1.max_moves ≤ s1.moves then
    let s2 := { s1 with game_over := true }
    ({ observation := exceededMessage
       score := s2.score
       done := s2.game_over
       moves := s2.moves
       valid_actions := []
       inventory := get_inventory s2
       location := s2.current_location }, s2)
  else
    let pr := processAction s1 (pyLower action)
    if darkNoLight pr.2 then
      if !(pr.2.grue_warning_given) && !(strContains pr.1 "grue") then
        mkResult (grueWarning ++ "\n\n" ++ pr.1)
          { pr.2 with grue_warning_given := true }
      else if pr.2.grue_warning_given && (pr.2.moves % 3 == 0) then
        mkResult grueDeath { pr.2 with game_over := true }
      else mkResult pr.1 pr.2
    else mkResult pr.1 pr.2

/-- `reset`: rebuild the initial state and return the initial envelope. -/
def reset : StepResult × GameState :=
  mkResult (locationDescription initState) initState

/-- Fold a list of commands through `step`, keeping the final state. -/
def run (s : GameState) (actions : List String) : GameState :=
  actions.foldl (fun st a => (step st a).2) s

/-- The fall-through condition of `_process_action`: the command matches
none of the interpreter's verb-class guards (each conjunct is the negation
of one dispatch guard, in source order; a whitespace-only command also
matches no class). -/
def matchesNoVerbClass (s : GameState) (action : String) : Bool :=
  match pySplit (pyLower action) with
  | [] => true
  | verb :: rest =>
    let words := verb :: rest
    let obj := if rest.isEmpty then "" else words.getLastD ""
    !((verb == "move" || verb == "lift") && obj == "rug") &&
    !(["go", "walk", "north", "south", "east", "west", "up", "down", "enter"].contains verb ||
      ((lookupRoom s s.current_location).exits.lookup verb).isSome) &&
    !(["look", "l"].contains verb && words.length == 1) &&
    !(["examine", "look"].contains verb && obj ≠ "" && obj ≠ "at") &&
    !(["inventory", "i"].contains verb) &&
    !(["take", "get", "pick"].contains verb) &&
    !(["drop", "put"].contains verb) &&
    !(verb == "open") &&
    !(verb == "close") &&
    !(verb == "turn" && words.length > 1) &&
    !(verb == "read") &&
    !(verb == "score") &&
    !(verb == "help")

/-- Fields of the session state that no command handler may touch, plus
monotonicity of the score, bundled for reuse. -/
def FrameOK (s t : GameState) : Prop :=
  t.moves = s.moves ∧ t.max_moves = s.max_moves ∧ t.game_over = s.game_over ∧
  t.grue_warning_given = s.grue_warning_given ∧ s.score ≤ t.score

/- Concrete play traces used as witnesses below. -/

/-- Initial position, after walking to the living room. -/
def trace_living_room : GameState :=
  run initState ["east", "enter window", "west"]

/-- Living room with the rug moved (trapdoor revealed). -/
def trace_rug_moved : GameState :=
  run initState ["east", "enter window", "west", "move rug"]

/-- In the dark cellar, one step after the grue warning was issued. -/
def trace_cellar_warned : GameState :=
  run initState ["east", "enter window", "west", "move rug", "go down"]

/-- Dead in the cellar (grue death on move 6). -/
def trace_dead : GameState :=
  run initState ["east", "enter window", "west", "move rug", "go down", "xyzzy"]

/-- Living room holding the (unlit) lamp. -/
def trace_lamp_held : GameState :=
  run initState ["east", "enter window", "west", "take lamp"]

/-- Starting square with the mailbox opened. -/
def trace_mailbox_open : GameState :=
  run initState ["open mailbox"]

/-- In the forest, where the egg lies. -/
def trace_forest : GameState :=
  run initState ["west"]

theorem frameOK_rfl (s : GameState) : FrameOK s s := ⟨rfl, rfl, rfl, rfl, le_rfl⟩

theorem frame_movement (s : GameState) (a : String) : FrameOK s (handle_movement s a).2 := by
  simp only [handle_movement]
  repeat' split
  all_goals exact frameOK_rfl s

theorem frame_examine (s : GameState) (obj : String) : FrameOK s (handle_examine s obj).2 := by
  simp only [handle_examine]
  repeat' split
  all_goals exact frameOK_rfl s

theorem frame_take (s : GameState) (obj : String) : FrameOK s (handle_take s obj).2 := by
  simp only [handle_take]
  repeat' split
  all_goals first
    | exact frameOK_rfl s
    | exact ⟨rfl, rfl, rfl, rfl, Nat.le_add_right _ _⟩

theorem frame_drop (s : GameState) (obj : String) : FrameOK s (handle_drop s obj).2 := by
  simp only [handle_drop]
  repeat' split
  all_goals exact frameOK_rfl s

theorem frame_open (s : GameState) (obj : String) : FrameOK s (handle_open s obj).2 := by
  simp only [handle_open]
  repeat' split
  all_goals exact frameOK_rfl s

theorem frame_close (s : GameState) (obj : String) : FrameOK s (handle_close s obj).2 := by
  simp only [handle_close]
  repeat' split
  all_goals exact frameOK_rfl s

theorem frame_turn_on (s : GameState) : FrameOK s (handle_turn_on_lamp s).2 := by
  simp only [handle_turn_on_lamp]
  repeat' split
  all_goals exact frameOK_rfl s

theorem frame_turn_off (s : GameState) : FrameOK s (handle_turn_off_lamp s).2 := by
  simp only [handle_turn_off_lamp]
  repeat' split
  all_goals exact frameOK_rfl s

theorem frame_read (s : GameState) (obj : String) : FrameOK s (handle_read s obj).2 := by
  simp only [handle_read]
  repeat' split
  all_goals first
    | exact frameOK_rfl s
    | exact ⟨rfl, rfl, rfl, rfl, Nat.le_add_right _ _⟩

theorem frame_move_rug (s : GameState) : FrameOK s (handle_move_rug s).2 := by
  simp only [handle_move_rug]
  repeat' split
  all_goals first
    | exact frameOK_rfl s
    | exact ⟨rfl, rfl, rfl, rfl, Nat.le_add_right _ _⟩

theorem frame_processAction (s : GameState) (a : String) :
    FrameOK s (processAction s a).2 := by
  simp only [processAction]
  rcases hw : pySplit (pyLower a) with _ | ⟨verb, rest⟩
  · exact frameOK_rfl s
  · dsimp only
    generalize (if rest.isEmpty then "" else (verb :: rest).getLastD "") = obj
    clear hw
    by_cases h1 : ((verb == "move" || verb == "lift") && obj == "rug") = true
    · rw [if_pos h1]; exact frame_move_rug s
    rw [if_neg h1]
    by_cases h2 : (["go", "walk", "north", "south", "east", "west", "up", "down", "enter"].contains verb ||
      (List.lookup verb (lookupRoom s s.current_location).exits).isSome) = true
    · rw [if_pos h2]; exact frame_movement s a
    rw [if_neg h2]
    by_cases h3 : (["look", "l"].contains verb && (verb :: rest).length == 1) = true
    · rw [if_pos h3]; exact frameOK_rfl s
    rw [if_neg h3]
    by_cases h4 : (["examine", "look"].contains verb && obj ≠ "" && obj ≠ "at") = true
    · rw [if_pos h4]; exact frame_examine s obj
    rw [if_neg h4]
    by_cases h5 : (["inventory", "i"].contains verb) = true
    · rw [if_pos h5]; exact frameOK_rfl s
    rw [if_neg h5]
    by_cases h6 : (["take", "get", "pick"].contains verb) = true
    · rw [if_pos h6]; exact frame_take s obj
    rw [if_neg h6]
    by_cases h7 : (["drop", "put"].contains verb) = true
    · rw [if_pos h7]; exact frame_drop s obj
    rw [if_neg h7]
    by_cases h8 : (verb == "open") = true
    · rw [if_pos h8]; exact frame_open s obj
    rw [if_neg h8]
    by_cases h9 : (verb == "close") = true
    · rw [if_pos h9]; exact frame_close s obj
    rw [if_neg h9]
    by_cases h10 : (verb == "turn" && (verb :: rest).length > 1) = true
    · rw [if_pos h10]
      by_cases h10a : ((verb :: rest).getD 1 "" == "on" && obj == "lamp") = true
      · rw [if_pos h10a]; exact frame_turn_on s
      rw [if_neg h10a]
      by_cases h10b : ((verb :: rest).getD 1 "" == "off" && obj == "lamp") = true
      · rw [if_pos h10b]; exact frame_turn_off s
      rw [if_neg h10b]; exact frameOK_rfl s
    rw [if_neg h10]
    by_cases h11 : (verb == "read") = true
    · rw [if_pos h11]; exact frame_read s obj
    rw [if_neg h11]
    rw [if_neg h1]
    by_cases h13 : (verb == "score") = true
    · rw [if_pos h13]; exact frameOK_rfl s
    rw [if_neg h13]
    by_cases h14 : (verb == "help") = true
    · rw [if_pos h14]; exact frameOK_rfl s
    rw [if_neg h14]
    exact frameOK_rfl s

/-- Reduce a dispatch guard when the current room has no exit named
like the verb. -/
theorem ite_isSome_none {α : Sort _} {o : Option (Option String)} (h : o = none)
    (x y : α) : (if o.isSome then x else y) = y := by subst h; rfl

/-- The move ceiling is not hit when `moves + 1 < max_moves`. -/
theorem not_ceiling {s : GameState} (h : s.moves + 1 < s.max_moves) :
    ¬ (({ s with moves := s.moves + 1 } : GameState).max_moves ≤
        ({ s with moves := s.moves + 1 } : GameState).moves) :=
  Nat.not_le.mpr h

/-- `step` always increments the move counter of the stored state by one. -/
theorem step_state_moves (s : GameState) (a : String) :
    (step s a).2.moves = s.moves + 1 := by
  have hf := frame_processAction { s with moves := s.moves + 1 } (pyLower a)
  simp only [step, mkResult]
  split
  · rfl
  · split
    · split
      · exact hf.1
      · split
        · exact hf.1
        · exact hf.1
    · exact hf.1

/-- `step` reports `moves = s.moves + 1` in the envelope. -/
theorem step_env_moves (s : GameState) (a : String) :
    (step s a).1.moves = s.moves + 1 := by
  have hf := frame_processAction { s with moves := s.moves + 1 } (pyLower a)
  simp only [step, mkResult]
  split
  · rfl
  · split
    · split
      · exact hf.1
      · split
        · exact hf.1
        · exact hf.1
    · exact hf.1

/-- The stored score never decreases across a `step`. -/
theorem step_score_mono (s : GameState) (a : String) :
    s.score ≤ (step s a).2.score := by
  have hf := frame_processAction { s with moves := s.moves + 1 } (pyLower a)
  simp only [step, mkResult]
  split
  · exact le_rfl
  · split
    · split
      · exact hf.2.2.2.2
      · split
        · exact hf.2.2.2.2
        · exact hf.2.2.2.2
    · exact hf.2.2.2.2

/-- Envelope score equals the stored score. -/
theorem step_env_score (s : GameState) (a : String) :
    (step s a).1.score = (step s a).2.score := by
  simp only [step, mkResult]
  split
  · rfl
  · split
    · split
      · rfl
      · split
        · rfl
        · rfl
    · rfl

/-- Envelope `done` equals the stored terminal flag. -/
theorem step_env_done (s : GameState) (a : String) :
    (step s a).1.done = (step s a).2.game_over := by
  simp only [step, mkResult]
  split
  · rfl
  · split
    · split
      · rfl
      · split
        · rfl
        · rfl
    · rfl

/-- Envelope `location` equals the stored current room. -/
theorem step_env_location (s : GameState) (a : String) :
    (step s a).1.location = (step s a).2.current_location := by
  simp only [step, mkResult]
  split
  · rfl
  · split
    · split
      · rfl
      · split
        · rfl
        · rfl
    · rfl

/-- A set terminal flag survives any further `step`. -/
theorem step_game_over_persists (s : GameState) (a : String) (h : s.game_over = true) :
    (step s a).2.game_over = true := by
  have hf := frame_processAction { s with moves := s.moves + 1 } (pyLower a)
  simp only [step, mkResult]
  split
  · rfl
  · split
    · split
      · exact hf.2.2.1.trans h
      · split
        · rfl
        · exact hf.2.2.1.trans h
    · exact hf.2.2.1.trans h

/-- Below the ceiling, the fields of the stored state that the hazard
wrapper never touches agree with the dispatch result. -/
theorem step_state_fields (s : GameState) (a : String)
    (hceil : s.moves + 1 < s.max_moves) :
    (step s a).2.score =
      (processAction { s with moves := s.moves + 1 } (pyLower a)).2.score ∧
    (step s a).2.object_states =
      (processAction { s with moves := s.moves + 1 } (pyLower a)).2.object_states ∧
    (step s a).2.inventory =
      (processAction { s with moves := s.moves + 1 } (pyLower a)).2.inventory ∧
    (step s a).2.current_location =
      (processAction { s with moves := s.moves + 1 } (pyLower a)).2.current_location ∧
    (step s a).2.locations =
      (processAction { s with moves := s.moves + 1 } (pyLower a)).2.locations := by
  simp only [step, mkResult]
  rw [if_neg (not_ceiling hceil)]
  split
  · split
    · exact ⟨rfl, rfl, rfl, rfl, rfl⟩
    · split
      · exact ⟨rfl, rfl, rfl, rfl, rfl⟩
      · exact ⟨rfl, rfl, rfl, rfl, rfl⟩
  · exact ⟨rfl, rfl, rfl, rfl, rfl⟩

/-- Below the ceiling and outside of darkness, `step` is dispatch plus
envelope assembly, nothing more. -/
theorem step_not_dark (s : GameState) (a : String)
    (hceil : s.moves + 1 < s.max_moves)
    (hnd : darkNoLight (processAction { s with moves := s.moves + 1 } (pyLower a)).2 = false) :
    step s a =
      mkResult (processAction { s with moves := s.moves + 1 } (pyLower a)).1
        (processAction { s with moves := s.moves + 1 } (pyLower a)).2 := by
  simp only [step]
  rw [if_neg (not_ceiling hceil)]
  rw [if_neg (by simp [hnd])]

/-- Fold a monotone score over a command list. -/
theorem run_score_mono (s : GameState) (acts : List String) :
    s.score ≤ (run s acts).score := by
  induction acts generalizing s with
  | nil => exact le_rfl
  | cons a t ih => exact le_trans (step_score_mono s a) (ih (step s a).2)

/-- C4: every `step` call, whatever the command and however it is handled
(including unrecognized commands; the ceiling branch increments too),
returns a state and an envelope whose move counter is exactly one more
than before the call. -/
theorem C4_move_counter_increment (s : GameState) (a : String) :
    (step s a).2.moves = s.moves + 1 ∧ (step s a).1.moves = s.moves + 1 :=
  ⟨step_state_moves s a, step_env_moves s a⟩

/- Dispatch computations for the concrete commands the claims exercise.
Each equation reduces `_process_action`'s guard chain by computation; only
the guard that consults the current room's exit map stays symbolic. -/

theorem pa_read_leaflet (s : GameState) :
    processAction s (pyLower "read leaflet") =
      (if ((lookupRoom s s.current_location).exits.lookup "read").isSome then
        handle_movement s "read leaflet"
      else handle_read s "leaflet") := rfl

theorem pa_take_egg (s : GameState) :
    processAction s (pyLower "take egg") =
      (if ((lookupRoom s s.current_location).exits.lookup "take").isSome then
        handle_movement s "take egg"
      else handle_take s "egg") := rfl

theorem pa_move_rug (s : GameState) :
    processAction s (pyLower "move rug") = handle_move_rug s := rfl

/-- The only two outcomes of `_handle_read` on the leaflet: no state
change (invisible, or already read), or read-flag set with one point. -/
theorem handle_read_leaflet_state (s : GameState) :
    (handle_read s "leaflet").2 = s ∨
    (s.object_states.leaflet_read = false ∧
      (handle_read s "leaflet").2 =
        { s with object_states := { s.object_states with leaflet_read := true }
                 score := s.score + 1 }) := by
  simp only [handle_read]
  split
  · exact Or.inl rfl
  · rw [if_pos (show ("leaflet" == "leaflet") = true from rfl)]
    cases hr : s.object_states.leaflet_read
    · exact Or.inr ⟨rfl, rfl⟩
    · exact Or.inl rfl

/-- The only two outcomes of `_handle_take` on the egg: no state change,
or egg moved to inventory with five points. -/
theorem handle_take_egg_state (s : GameState) :
    (handle_take s "egg").2 = s ∨
    (handle_take s "egg").2 =
      { s with object_states := { s.object_states with egg_location := "inventory" }
               score := s.score + 5
               inventory := s.inventory ++ ["egg"] } := by
  simp only [handle_take]
  repeat' split
  all_goals first
    | exact Or.inl rfl
    | exact Or.inr rfl
    | simp_all

/-- The only two outcomes of `_handle_move_rug`: no state change, or the
rug marked moved, two points, and the trapdoor exit written. -/
theorem handle_move_rug_state (s : GameState) :
    (handle_move_rug s).2 = s ∨
    (s.object_states.rug_moved = false ∧
      (handle_move_rug s).2 =
        { s with object_states :=
                  { s.object_states with rug_moved := true, rug_location := "living_room" }
                 score := s.score + 2
                 locations := setExit s.locations "living_room" "down" (some "cellar") }) := by
  simp only [handle_move_rug]
  split
  · exact Or.inl rfl
  · split
    · exact Or.inl rfl
    · rename_i hmoved
      exact Or.inr ⟨by simpa using hmoved, rfl⟩

/-- C3: the score is monotone (per step, and along every command
sequence), and the three scoring actions award their exact amounts: a
`read leaflet` step that flips the read flag from false to true adds
exactly 1 and a re-read adds 0; a `take egg` step that puts the egg into
the inventory adds exactly 5; a first successful `move rug` adds exactly
2 and later attempts add 0. -/
theorem C3_score_rules :
    (∀ (s : GameState) (acts : List String), s.score ≤ (run s acts).score) ∧
    (∀ (s : GameState) (a : String), s.score ≤ (step s a).2.score) ∧
    (∀ s : GameState,
      (lookupRoom s s.current_location).exits.lookup "read" = none →
      s.moves + 1 < s.max_moves →
      ((s.object_states.leaflet_read = false →
        (step s "read leaflet").2.object_states.leaflet_read = true →
        (step s "read leaflet").2.score = s.score + 1) ∧
       (s.object_states.leaflet_read = true →
        (step s "read leaflet").2.score = s.score))) ∧
    (∀ s : GameState,
      (lookupRoom s s.current_location).exits.lookup "take" = none →
      s.moves + 1 < s.max_moves →
      "egg" ∉ s.inventory →
      "egg" ∈ (step s "take egg").2.inventory →
      (step s "take egg").2.score = s.score + 5) ∧
    (∀ s : GameState,
      s.moves + 1 < s.max_moves →
      ((s.object_states.rug_moved = false →
        (step s "move rug").2.object_states.rug_moved = true →
        (step s "move rug").2.score = s.score + 2) ∧
       (s.object_states.rug_moved = true →
        (step s "move rug").2.score = s.score))) := by
  refine ⟨run_score_mono, step_score_mono, ?_, ?_, ?_⟩
  · intro s hlook hceil
    have hfields := step_state_fields s "read leaflet" hceil
    have hpa : processAction { s with moves := s.moves + 1 } (pyLower "read leaflet") =
        handle_read { s with moves := s.moves + 1 } "leaflet" := by
      rw [pa_read_leaflet]
      exact ite_isSome_none hlook _ _
    rw [hpa] at hfields
    rcases handle_read_leaflet_state { s with moves := s.moves + 1 } with h | ⟨hr, h⟩
    · rw [h] at hfields
      constructor
      · intro h0 h1
        rw [hfields.2.1] at h1
        have h1' : s.object_states.leaflet_read = true := h1
        rw [h0] at h1'
        exact absurd h1' (by decide)
      · intro _
        exact hfields.1
    · rw [h] at hfields
      constructor
      · intro _ _
        exact hfields.1
      · intro h0
        have hr' : s.object_states.leaflet_read = false := hr
        rw [h0] at hr'
        exact absurd hr' (by decide)
  · intro s hlook hceil hnot hin
    have hfields := step_state_fields s "take egg" hceil
    have hpa : processAction { s with moves := s.moves + 1 } (pyLower "take egg") =
        handle_take { s with moves := s.moves + 1 } "egg" := by
      rw [pa_take_egg]
      exact ite_isSome_none hlook _ _
    rw [hpa] at hfields
    rcases handle_take_egg_state { s with moves := s.moves + 1 } with h | h
    · rw [h] at hfields
      rw [hfields.2.2.1] at hin
      exact absurd hin hnot
    · rw [h] at hfields
      exact hfields.1
  · intro s hceil
    have hfields := step_state_fields s "move rug" hceil
    have hpa : processAction { s with moves := s.moves + 1 } (pyLower "move rug") =
        handle_move_rug { s with moves := s.moves + 1 } := pa_move_rug _
    rw [hpa] at hfields
    rcases handle_move_rug_state { s with moves := s.moves + 1 } with h | ⟨hm, h⟩
    · rw [h] at hfields
      constructor
      · intro h0 h1
        rw [hfields.2.1] at h1
        have h1' : s.object_states.rug_moved = true := h1
        rw [h0] at h1'
        exact absurd h1' (by decide)
      · intro _
        exact hfields.1
    · rw [h] at hfields
      constructor
      · intro _ _
        exact hfields.1
      · intro h0
        have hm' : s.object_states.rug_moved = false := hm
        rw [h0] at hm'
        exact absurd hm' (by decide)

/-- Witness for C3 on concrete play: first leaflet read awards 1 (from
the opened mailbox), taking the egg in the forest awards 5, moving the
rug in the living room awards 2. -/
theorem C3_score_rules_witness :
    (step trace_mailbox_open "read leaflet").2.score = trace_mailbox_open.score + 1 ∧
    (step trace_forest "take egg").2.score = trace_forest.score + 5 ∧
    (step trace_living_room "move rug").2.score = trace_living_room.score + 2 :=
  ⟨(C3_score_rules.2.2.1 trace_mailbox_open (by decide) (by decide)).1 (by decide) (by decide),
   C3_score_rules.2.2.2.1 trace_forest (by decide) (by decide) (by decide) (by decide),
   (C3_score_rules.2.2.2.2 trace_living_room (by decide)).1 (by decide) (by decide)⟩

/-- C8: when the incremented move counter reaches the ceiling of 1000,
`step` skips dispatch and returns the fixed exceeded-moves envelope with
`done = true` and no valid actions; the stored state changes only in
`moves` and the terminal flag. -/
theorem C8_move_ceiling (s : GameState) (a : String)
    (hmax : s.max_moves = 1000) (h : 1000 ≤ s.moves + 1) :
    (step s a).1 =
      { observation := exceededMessage
        score := s.score
        done := true
        moves := s.moves + 1
        valid_actions := []
        inventory := get_inventory { s with moves := s.moves + 1, game_over := true }
        location := s.current_location } ∧
    (step s a).2 = { s with moves := s.moves + 1, game_over := true } := by
  have hc : (({ s with moves := s.moves + 1 } : GameState).max_moves ≤
      ({ s with moves := s.moves + 1 } : GameState).moves) := by
    show s.max_moves ≤ s.moves + 1
    rw [hmax]
    exact h
  simp only [step]
  rw [if_pos hc]
  exact ⟨rfl, rfl⟩

/-- Witness for C8 at move counter 999: the 1000th step is terminal. -/
theorem C8_move_ceiling_witness :
    (step { initState with moves := 999 } "look").1.done = true ∧
    (step { initState with moves := 999 } "look").1.observation = exceededMessage ∧
    (step { initState with moves := 999 } "look").1.valid_actions = [] ∧
    (step { initState with moves := 999 } "look").2.current_location =
      initState.current_location := by
  have h := C8_move_ceiling { initState with moves := 999 } "look" rfl (by decide)
  refine ⟨?_, ?_, ?_, ?_⟩
  · rw [h.1]
  · rw [h.1]
  · rw [h.1]
  · rw [h.2]

/-- C10: `step` never consults the terminal flag before processing: from
any terminal state the move counter still advances and `done` remains
true, and reset alone clears the flag.  On the concrete post-death state
`trace_dead`, further steps still move the player, fill the inventory and
grow the score. -/
theorem C10_terminal_not_checked (s : GameState) (a : String) (h : s.game_over = true) :
    (step s a).1.done = true ∧
    (step s a).2.game_over = true ∧
    (step s a).2.moves = s.moves + 1 ∧
    reset.2.game_over = false ∧
    trace_dead.game_over = true ∧
    (step trace_dead "up").2.current_location = "living_room" ∧
    (step trace_dead "up").1.done = true ∧
    (run trace_dead ["up", "take lamp"]).inventory = ["lamp"] ∧
    (run trace_dead ["up", "east", "window", "west", "open mailbox", "read leaflet"]).score =
      trace_dead.score + 1 ∧
    (run trace_dead ["up", "east", "window", "west", "open mailbox", "read leaflet"]).game_over =
      true :=
  ⟨(step_env_done s a).trans (step_game_over_persists s a h),
   step_game_over_persists s a h, step_state_moves s a,
   by decide, by decide, by decide, by decide, by decide, by decide, by decide⟩

/-- Witness for C10 at the concrete dead state. -/
theorem C10_terminal_not_checked_witness :
    (step trace_dead "wait").1.done = true ∧
    (step trace_dead "wait").2.moves = trace_dead.moves + 1 :=
  ⟨(C10_terminal_not_checked trace_dead "wait" (by decide)).1,
   (C10_terminal_not_checked trace_dead "wait" (by decide)).2.2.1⟩

theorem pa_go_down (s : GameState) :
    processAction s (pyLower "go down") = handle_movement s "go down" := rfl

/-- `_handle_movement` on `go down`, reduced to the exit-map lookup. -/
theorem handle_movement_go_down (s : GameState) :
    handle_movement s "go down" =
      match (lookupRoom s s.current_location).exits.lookup "down" with
      | none => ("You can't go that way.", s)
      | some none =>
          if s.current_location == "living_room" then ("You can't go that way.", s)
          else ("You can't go that way.", s)
      | some (some destination) =>
          (locationDescription { s with current_location := destination },
           { s with current_location := destination }) := rfl

/-- Point lookup after a Python dict write on an association list. -/
theorem lookup_map_set (xs : List (String × Option String)) (k : String) (v : Option String) :
    (xs.map (fun p => if p.1 == k then (p.1, v) else p)).lookup k =
      (xs.lookup k).map (fun _ => v) := by
  induction xs with
  | nil => rfl
  | cons p t ih =>
    obtain ⟨a, b⟩ := p
    simp only [List.map_cons]
    by_cases hk : a = k
    · subst hk
      rw [if_pos (by simp)]
      simp [List.lookup]
    · rw [if_neg (by simp [hk])]
      simp only [List.lookup, beq_false_of_ne (Ne.symm hk)]
      exact ih

/-- Appending a fresh binding makes it the lookup result. -/
theorem lookup_append_self (xs : List (String × Option String)) (k : String) (v : Option String)
    (h : xs.lookup k = none) : (xs ++ [(k, v)]).lookup k = some v := by
  induction xs with
  | nil => simp [List.lookup]
  | cons p t ih =>
    obtain ⟨a, b⟩ := p
    simp only [List.cons_append]
    by_cases hk : k = a
    · subst hk
      simp [List.lookup] at h
    · simp only [List.lookup, beq_false_of_ne hk] at h ⊢
      exact ih h

/-- `setAssoc` writes the binding it is given. -/
theorem lookup_setAssoc (xs : List (String × Option String)) (k : String) (v : Option String) :
    (setAssoc xs k v).lookup k = some v := by
  unfold setAssoc
  split
  · rename_i h
    rw [lookup_map_set]
    cases hx : xs.lookup k
    · rw [hx] at h; simp at h
    · simp
  · rename_i h
    apply lookup_append_self
    cases hx : xs.lookup k
    · rfl
    · rw [hx] at h; simp at h

/-- `setExit` rewrites exactly the named room's exit table. -/
theorem lookup_setExit (locs : List (String × Room)) (room d : String) (v : Option String) :
    (setExit locs room d v).lookup room =
      (locs.lookup room).map (fun r => { r with exits := setAssoc r.exits d v }) := by
  unfold setExit
  induction locs with
  | nil => rfl
  | cons p t ih =>
    obtain ⟨a, r⟩ := p
    simp only [List.map_cons]
    by_cases hk : a = room
    · subst hk
      rw [if_pos (by simp)]
      simp [List.lookup]
    · rw [if_neg (by simp [hk])]
      simp only [List.lookup, beq_false_of_ne (Ne.symm hk)]
      exact ih

/-- `_handle_move_rug` when the rug is visible and unmoved: flag set, two
points, trapdoor exit written. -/
theorem handle_move_rug_success (s : GameState)
    (hvis : "rug" ∈ visibleObjects s)
    (hmoved : s.object_states.rug_moved = false) :
    handle_move_rug s =
      ("You move the rug aside, revealing a closed trapdoor in the floor.",
       { s with object_states :=
                  { s.object_states with rug_moved := true, rug_location := "living_room" }
                score := s.score + 2
                locations := setExit s.locations "living_room" "down" (some "cellar") }) := by
  simp only [handle_move_rug]
  rw [if_neg (by simp [hvis]), if_neg (by simp [hmoved])]
/-- C2: while the living room's `down` exit is still blocked (as it is at
construction, before any successful "move rug"), `go down` stays in the
living room with the blocked message; a successful "move rug" sets the
moved flag, awards exactly 2 points and writes the
`living_room → down → cellar` exit; with that exit present, `go down`
moves the player to the cellar. -/
theorem C2_rug_gates_cellar :
    (∀ s : GameState,
      s.current_location = "living_room" →
      (lookupRoom s "living_room").exits.lookup "down" = some none →
      s.moves + 1 < s.max_moves →
      (step s "go down").2.current_location = "living_room" ∧
      (step s "go down").1.observation = "You can't go that way." ∧
      (step s "go down").1.location = "living_room") ∧
    (∀ s : GameState,
      s.moves + 1 < s.max_moves →
      "rug" ∈ visibleObjects s →
      s.object_states.rug_moved = false →
      (s.locations.lookup "living_room").isSome = true →
      (step s "move rug").2.object_states.rug_moved = true ∧
      (step s "move rug").2.score = s.score + 2 ∧
      (lookupRoom (step s "move rug").2 "living_room").exits.lookup "down" =
        some (some "cellar")) ∧
    (∀ s : GameState,
      s.current_location = "living_room" →
      (lookupRoom s "living_room").exits.lookup "down" = some (some "cellar") →
      s.moves + 1 < s.max_moves →
      (step s "go down").2.current_location = "cellar" ∧
      (step s "go down").1.location = "cellar") := by
  refine ⟨?_, ?_, ?_⟩
  · intro s hloc hdown hceil
    have hd1 : (lookupRoom ({ s with moves := s.moves + 1 } : GameState)
        ({ s with moves := s.moves + 1 } : GameState).current_location).exits.lookup "down" =
        some none := by
      show (lookupRoom s s.current_location).exits.lookup "down" = some none
      rw [hloc]
      exact hdown
    have hcond : (({ s with moves := s.moves + 1 } : GameState).current_location ==
        "living_room") = true := by
      show (s.current_location == "living_room") = true
      rw [hloc]
      rfl
    have hmv := handle_movement_go_down { s with moves := s.moves + 1 }
    rw [hd1] at hmv
    dsimp only at hmv
    rw [if_pos hcond] at hmv
    have hnd : darkNoLight
        (processAction { s with moves := s.moves + 1 } (pyLower "go down")).2 = false := by
      rw [pa_go_down, hmv]
      show (dark_locations.contains s.current_location &&
        !(hasLight { s with moves := s.moves + 1 })) = false
      rw [hloc]
      rfl
    have hs := step_not_dark s "go down" hceil hnd
    rw [pa_go_down, hmv] at hs
    rw [hs]
    exact ⟨hloc, rfl, hloc⟩
  · intro s hceil hvis hmoved hsome
    have hfields := step_state_fields s "move rug" hceil
    rw [pa_move_rug] at hfields
    have h := handle_move_rug_success { s with moves := s.moves + 1 } hvis hmoved
    rw [h] at hfields
    refine ⟨?_, ?_, ?_⟩
    · rw [hfields.2.1]
    · rw [hfields.1]
    · obtain ⟨r, hr⟩ := Option.isSome_iff_exists.mp hsome
      simp only [lookupRoom]
      rw [hfields.2.2.2.2]
      show ((((setExit s.locations "living_room" "down" (some "cellar")).lookup
        "living_room").getD { description := "", exits := [], objects := [] }).exits).lookup
        "down" = some (some "cellar")
      rw [lookup_setExit, hr]
      simpa using lookup_setAssoc r.exits "down" (some "cellar")
  · intro s hloc hdown hceil
    have hd1 : (lookupRoom ({ s with moves := s.moves + 1 } : GameState)
        ({ s with moves := s.moves + 1 } : GameState).current_location).exits.lookup "down" =
        some (some "cellar") := by
      show (lookupRoom s s.current_location).exits.lookup "down" = some (some "cellar")
      rw [hloc]
      exact hdown
    have hmv := handle_movement_go_down { s with moves := s.moves + 1 }
    rw [hd1] at hmv
    dsimp only at hmv
    have hfields := step_state_fields s "go down" hceil
    rw [pa_go_down, hmv] at hfields
    refine ⟨?_, ?_⟩
    · rw [hfields.2.2.2.1]
    · rw [step_env_location, hfields.2.2.2.1]

/-- Witness for C2 on the concrete living-room trace: blocked before the
rug moves, open afterwards. -/
theorem C2_rug_gates_cellar_witness :
    ((step trace_living_room "go down").2.current_location = "living_room" ∧
      (step trace_living_room "go down").1.observation = "You can't go that way.") ∧
    ((step trace_living_room "move rug").2.score = trace_living_room.score + 2 ∧
      (lookupRoom (step trace_living_room "move rug").2 "living_room").exits.lookup "down" =
        some (some "cellar")) ∧
    (step trace_rug_moved "go down").2.current_location = "cellar" := by
  have h1 := C2_rug_gates_cellar.1 trace_living_room (by decide) (by decide) (by decide)
  have h2 := C2_rug_gates_cellar.2.1 trace_living_room (by decide) (by decide) (by decide)
    (by decide)
  have h3 := C2_rug_gates_cellar.2.2 trace_rug_moved (by decide) (by decide) (by decide)
  exact ⟨⟨h1.1, h1.2.1⟩, ⟨h2.2.1, h2.2.2⟩, h3.1⟩

/-- C5 (code evaluation): in the reachable state `trace_lamp_held` the
lamp is held and the session is live, yet the recomputed valid-action
list contains no `drop lamp` and no `turn on/off lamp` entry — the
`drop`/`turn on`/`turn off` branches of `get_valid_actions` require the
object to be in the visible-object list, and `_get_visible_objects` never
returns held objects (their recorded location is `"inventory"`, not the
current room).  The examine/look-at/take entries and the constant tail
are present as specified. -/
theorem C5_valid_actions_eval :
    trace_lamp_held.game_over = false ∧
    "lamp" ∈ trace_lamp_held.inventory ∧
    "lamp" ∉ visibleObjects trace_lamp_held ∧
    "drop lamp" ∉ get_valid_actions trace_lamp_held ∧
    "turn on lamp" ∉ get_valid_actions trace_lamp_held ∧
    "turn off lamp" ∉ get_valid_actions trace_lamp_held ∧
    "drop lamp" ∉ (step trace_lamp_held "look").1.valid_actions ∧
    "turn on lamp" ∉ (step trace_lamp_held "look").1.valid_actions ∧
    "examine sword" ∈ get_valid_actions trace_lamp_held ∧
    "look at sword" ∈ get_valid_actions trace_lamp_held ∧
    "take sword" ∈ get_valid_actions trace_lamp_held ∧
    "look" ∈ get_valid_actions trace_lamp_held ∧
    "inventory" ∈ get_valid_actions trace_lamp_held ∧
    "i" ∈ get_valid_actions trace_lamp_held ∧
    "help" ∈ get_valid_actions trace_lamp_held ∧
    "score" ∈ get_valid_actions trace_lamp_held := by
  decide

/-- C6 (code evaluation): `move north` reaches no handler — the dispatch
guard for movement omits the verb `move` (and the move/lift guard only
accepts the rug), so the command falls through to the unrecognized-command
reply and the player stays put, even though `_handle_movement` itself
would strip `move` and perform the move, and `go/walk/enter north` and
bare `north` all do move the player. -/
theorem C6_move_verb_eval :
    processAction initState "move north" = ("I don't understand that command.", initState) ∧
    (step initState "move north").1.observation = "I don't understand that command." ∧
    (step initState "move north").2.current_location = "west_of_house" ∧
    (lookupRoom initState "west_of_house").exits.lookup "north" = some (some "north_of_house") ∧
    (handle_movement initState "move north").2.current_location = "north_of_house" ∧
    (step initState "go north").2.current_location = "north_of_house" ∧
    (step initState "walk north").2.current_location = "north_of_house" ∧
    (step initState "north").2.current_location = "north_of_house" ∧
    (step initState "enter north").2.current_location = "north_of_house" := by
  refine ⟨rfl, rfl, rfl, rfl, rfl, rfl, rfl, rfl, rfl⟩

theorem pa_take_leaflet (s : GameState) :
    processAction s (pyLower "take leaflet") =
      (if ((lookupRoom s s.current_location).exits.lookup "take").isSome then
        handle_movement s "take leaflet"
      else handle_take s "leaflet") := rfl

theorem pa_open_mailbox (s : GameState) :
    processAction s (pyLower "open mailbox") =
      (if ((lookupRoom s s.current_location).exits.lookup "open").isSome then
        handle_movement s "open mailbox"
      else handle_open s "mailbox") := rfl

/-- Anything visible rules out the unlit-dark condition. -/
theorem mem_visible_not_dark (s : GameState) (x : String)
    (h : x ∈ visibleObjects s) : darkNoLight s = false := by
  by_cases hd : darkNoLight s = true
  · simp only [visibleObjects] at h
    rw [if_pos hd] at h
    exact absurd h (List.not_mem_nil x)
  · simpa using hd

/-- With the mailbox closed and the leaflet inside it, the leaflet is not
in the visible-object list. -/
theorem leaflet_not_visible (s : GameState)
    (hmb : s.object_states.mailbox_open = false)
    (hleaf : s.object_states.leaflet_location = "in_mailbox")
    (hloc : s.current_location ≠ "in_mailbox") :
    "leaflet" ∉ visibleObjects s := by
  simp only [visibleObjects]
  split
  · exact List.not_mem_nil _
  · split
    · rename_i hcond
      rw [hmb] at hcond
      simp at hcond
    · intro hmem
      have h2 := (List.mem_filter.mp hmem).2
      have h3 : (s.object_states.leaflet_location == s.current_location) = true := h2
      rw [hleaf] at h3
      have h4 : "in_mailbox" = s.current_location := by simpa using h3
      exact hloc h4.symm

/-- Taking an invisible object fails with the canned refusal. -/
theorem handle_take_invisible (s : GameState) (obj : String)
    (h : obj ∉ visibleObjects s) :
    handle_take s obj = ("You don't see that here.", s) := by
  simp only [handle_take]
  rw [if_pos (show (!(visibleObjects s).contains obj) = true by simp [h])]

/-- Opening the closed mailbox with the leaflet inside reveals it. -/
theorem handle_open_mailbox_reveals (s : GameState)
    (hvis : "mailbox" ∈ visibleObjects s)
    (hmb : s.object_states.mailbox_open = false)
    (hleaf : s.object_states.leaflet_location = "in_mailbox") :
    handle_open s "mailbox" =
      ("Opening the mailbox reveals a small leaflet.",
       { s with object_states := { s.object_states with mailbox_open := true } }) := by
  simp only [handle_open]
  rw [if_neg (by simp [hvis])]
  rw [if_pos (show ("mailbox" == "mailbox") = true from rfl)]
  rw [if_neg (by simp [hmb])]
  rw [if_pos (by rw [hleaf]; rfl)]

/-- Taking the visible leaflet from the open mailbox succeeds. -/
theorem handle_take_leaflet_success (s : GameState)
    (hvis : "leaflet" ∈ visibleObjects s)
    (hninv : "leaflet" ∉ s.inventory)
    (hopen : s.object_states.mailbox_open = true) :
    handle_take s "leaflet" =
      ("Taken.",
       { s with object_states := { s.object_states with leaflet_location := "inventory" }
                inventory := s.inventory ++ ["leaflet"] }) := by
  simp only [handle_take]
  rw [if_neg (by simp [hvis])]
  rw [if_neg (by simp [hninv])]
  rw [if_neg (by decide)]
  rw [if_neg (by simp [hopen])]
  rw [if_pos (show ("leaflet" == "leaflet") = true from rfl)]

/-- The darkness test only reads the room, the inventory and the lamp. -/
theorem darkNoLight_eq (s t : GameState)
    (h1 : t.current_location = s.current_location)
    (h2 : t.inventory = s.inventory)
    (h3 : t.object_states.lamp_on = s.object_states.lamp_on) :
    darkNoLight t = darkNoLight s := by
  simp only [darkNoLight, hasLight, h1, h2, h3]

/-- The mailbox is visible whenever it is recorded in the lit current room. -/
theorem mailbox_visible (s : GameState)
    (hdark : darkNoLight s = false)
    (hobj : "mailbox" ∈ (lookupRoom s s.current_location).objects)
    (hlocm : s.object_states.mailbox_location = s.current_location) :
    "mailbox" ∈ visibleObjects s := by
  simp only [visibleObjects]
  rw [if_neg (by simp [hdark])]
  have hmem : "mailbox" ∈ (lookupRoom s s.current_location).objects.filter
      (fun obj => objLocation s.object_states obj == s.current_location) := by
    apply List.mem_filter.mpr
    refine ⟨hobj, ?_⟩
    show (s.object_states.mailbox_location == s.current_location) = true
    rw [hlocm]
    exact beq_self_eq_true _
  split
  · exact List.mem_append_left _ hmem
  · exact hmem

/-- Once the mailbox is open (and the leaflet inside), the leaflet joins
the visible-object list. -/
theorem leaflet_visible (s : GameState)
    (hdark : darkNoLight s = false)
    (hobj : "mailbox" ∈ (lookupRoom s s.current_location).objects)
    (hlocm : s.object_states.mailbox_location = s.current_location)
    (hopen : s.object_states.mailbox_open = true)
    (hleaf : s.object_states.leaflet_location = "in_mailbox") :
    "leaflet" ∈ visibleObjects s := by
  simp only [visibleObjects]
  rw [if_neg (by simp [hdark])]
  have hmem : "mailbox" ∈ (lookupRoom s s.current_location).objects.filter
      (fun obj => objLocation s.object_states obj == s.current_location) := by
    apply List.mem_filter.mpr
    refine ⟨hobj, ?_⟩
    show (s.object_states.mailbox_location == s.current_location) = true
    rw [hlocm]
    exact beq_self_eq_true _
  have hc : ((lookupRoom s s.current_location).objects.filter
      (fun obj => objLocation s.object_states obj == s.current_location)).contains
      "mailbox" = true := by simpa using hmem
  rw [if_pos (by rw [hc, hopen, hleaf]; rfl)]
  exact List.mem_append_right _ (by simp)

/-- The darkness test is unchanged by moving the leaflet into the
inventory. -/
theorem darkNoLight_after_take (s t : GameState)
    (hloc : t.current_location = s.current_location)
    (hlamp : t.object_states.lamp_on = s.object_states.lamp_on)
    (hinv : t.inventory = s.inventory ++ ["leaflet"])
    (h : darkNoLight s = false) : darkNoLight t = false := by
  simp only [darkNoLight, hasLight] at h ⊢
  rw [hloc, hlamp, hinv]
  cases h1 : dark_locations.contains s.current_location
  · rfl
  · rw [h1] at h
    simp only [Bool.true_and] at h ⊢
    simp only [Bool.not_eq_false'] at h
    simp only [Bool.and_eq_true] at h
    have hmem : "lamp" ∈ s.inventory := by simpa using h.1
    simp [h.2, List.mem_append, hmem]

/-- Taking the leaflet from any suitable state with the mailbox open:
the leaflet is visible, so the take succeeds. -/
theorem take_leaflet_after_open (t : GameState)
    (hdark : darkNoLight t = false)
    (hobj : "mailbox" ∈ (lookupRoom t t.current_location).objects)
    (hlocm : t.object_states.mailbox_location = t.current_location)
    (hopen : t.object_states.mailbox_open = true)
    (hleaf : t.object_states.leaflet_location = "in_mailbox")
    (hninv : "leaflet" ∉ t.inventory)
    (hlktake : (lookupRoom t t.current_location).exits.lookup "take" = none)
    (hceil : t.moves + 1 < t.max_moves) :
    (step t "take leaflet").1.observation = "Taken." ∧
    (step t "take leaflet").2.object_states.leaflet_location = "inventory" ∧
    (step t "take leaflet").2.inventory = t.inventory ++ ["leaflet"] := by
  have hvisL : "leaflet" ∈ visibleObjects { t with moves := t.moves + 1 } :=
    leaflet_visible { t with moves := t.moves + 1 } hdark hobj hlocm hopen hleaf
  have htake1 : processAction { t with moves := t.moves + 1 } (pyLower "take leaflet") =
      handle_take { t with moves := t.moves + 1 } "leaflet" := by
    rw [pa_take_leaflet]
    exact ite_isSome_none hlktake _ _
  have htake2 := handle_take_leaflet_success { t with moves := t.moves + 1 } hvisL hninv hopen
  have hnd2 : darkNoLight
      (processAction { t with moves := t.moves + 1 } (pyLower "take leaflet")).2 = false := by
    rw [htake1, htake2]
    exact darkNoLight_after_take t _ rfl rfl rfl hdark
  have hst := step_not_dark t "take leaflet" hceil hnd2
  rw [htake1, htake2] at hst
  rw [hst]
  exact ⟨rfl, rfl, rfl⟩

/-- C7: while the mailbox is closed with the leaflet inside, the leaflet
is not visible and `take leaflet` replies "You don't see that here."
without changing anything except the move counter; immediately after
`open mailbox`, `take leaflet` succeeds, moves the leaflet to the
inventory and replies "Taken.". -/
theorem C7_containment_gating :
    (∀ s : GameState,
      s.object_states.mailbox_open = false →
      s.object_states.leaflet_location = "in_mailbox" →
      s.current_location ≠ "in_mailbox" →
      darkNoLight s = false →
      (lookupRoom s s.current_location).exits.lookup "take" = none →
      s.moves + 1 < s.max_moves →
      "leaflet" ∉ visibleObjects s ∧
      (step s "take leaflet").1.observation = "You don't see that here." ∧
      (step s "take leaflet").2 = { s with moves := s.moves + 1 }) ∧
    (∀ s : GameState,
      darkNoLight s = false →
      "mailbox" ∈ (lookupRoom s s.current_location).objects →
      s.object_states.mailbox_location = s.current_location →
      s.object_states.mailbox_open = false →
      s.object_states.leaflet_location = "in_mailbox" →
      "leaflet" ∉ s.inventory →
      (lookupRoom s s.current_location).exits.lookup "open" = none →
      (lookupRoom s s.current_location).exits.lookup "take" = none →
      s.moves + 2 < s.max_moves →
      (step s "open mailbox").1.observation = "Opening the mailbox reveals a small leaflet." ∧
      (step (step s "open mailbox").2 "take leaflet").1.observation = "Taken." ∧
      (step (step s "open mailbox").2 "take leaflet").2.object_states.leaflet_location =
        "inventory" ∧
      (step (step s "open mailbox").2 "take leaflet").2.inventory =
        s.inventory ++ ["leaflet"]) := by
  constructor
  · intro s hmb hleaf hloc hdark hlook hceil
    have hninvis : "leaflet" ∉ visibleObjects s := leaflet_not_visible s hmb hleaf hloc
    have hpa1 : processAction { s with moves := s.moves + 1 } (pyLower "take leaflet") =
        handle_take { s with moves := s.moves + 1 } "leaflet" := by
      rw [pa_take_leaflet]
      exact ite_isSome_none hlook _ _
    have hpa : processAction { s with moves := s.moves + 1 } (pyLower "take leaflet") =
        ("You don't see that here.", { s with moves := s.moves + 1 }) := by
      rw [hpa1]
      exact handle_take_invisible { s with moves := s.moves + 1 } "leaflet" hninvis
    have hnd : darkNoLight
        (processAction { s with moves := s.moves + 1 } (pyLower "take leaflet")).2 = false := by
      rw [hpa]
      exact hdark
    have hs := step_not_dark s "take leaflet" hceil hnd
    rw [hpa] at hs
    rw [hs]
    refine ⟨hninvis, rfl, rfl⟩
  · intro s hdark hobj hlocm hmb hleaf hninv hlkopen hlktake hceil
    have hceil1 : s.moves + 1 < s.max_moves := by omega
    have hmbvis : "mailbox" ∈ visibleObjects { s with moves := s.moves + 1 } :=
      mailbox_visible { s with moves := s.moves + 1 } hdark hobj hlocm
    have hopen1 : processAction { s with moves := s.moves + 1 } (pyLower "open mailbox") =
        handle_open { s with moves := s.moves + 1 } "mailbox" := by
      rw [pa_open_mailbox]
      exact ite_isSome_none hlkopen _ _
    have hopen2 := handle_open_mailbox_reveals { s with moves := s.moves + 1 } hmbvis hmb hleaf
    have hnd1 : darkNoLight
        (processAction { s with moves := s.moves + 1 } (pyLower "open mailbox")).2 = false := by
      rw [hopen1, hopen2]
      exact (darkNoLight_eq s _ rfl rfl rfl).trans hdark
    have hso := step_not_dark s "open mailbox" hceil1 hnd1
    rw [hopen1, hopen2] at hso
    rw [hso]
    simp only [mkResult]
    have hrest := take_leaflet_after_open
      { { s with moves := s.moves + 1 } with
        object_states :=
          { ({ s with moves := s.moves + 1 } : GameState).object_states with
            mailbox_open := true } }
      ((darkNoLight_eq s _ rfl rfl rfl).trans hdark) hobj hlocm rfl hleaf hninv hlktake hceil
    exact ⟨trivial, hrest.1, hrest.2.1, hrest.2.2⟩

/-- Witness for C7 at the starting square. -/
theorem C7_containment_gating_witness :
    (step initState "take leaflet").1.observation = "You don't see that here." ∧
    (step (step initState "open mailbox").2 "take leaflet").1.observation = "Taken." ∧
    (step (step initState "open mailbox").2 "take leaflet").2.inventory =
      initState.inventory ++ ["leaflet"] :=
  ⟨(C7_containment_gating.1 initState (by decide) (by decide) (by decide) (by decide)
      (by decide) (by decide)).2.1,
   (C7_containment_gating.2 initState (by decide) (by decide) (by decide) (by decide)
      (by decide) (by decide) (by decide) (by decide) (by decide)).2.1,
   (C7_containment_gating.2 initState (by decide) (by decide) (by decide) (by decide)
      (by decide) (by decide) (by decide) (by decide) (by decide)).2.2.2⟩

/-- C1: once a step (below the ceiling) ends in a dark room without
light, the hazard wrapper behaves exactly as specified: on the first dark
encounter (warning flag unset, dispatch response free of "grue") the
warning is prepended and the flag set, with no death; after the warning,
the response is overwritten by the death message and the terminal flag
set exactly when the incremented move counter is divisible by 3, and the
response and flags are untouched otherwise. -/
theorem C1_grue_hazard (s : GameState) (a : String) (r : String) (t : GameState)
    (hpr : processAction { s with moves := s.moves + 1 } (pyLower a) = (r, t))
    (hceil : s.moves + 1 < s.max_moves)
    (hdark : darkNoLight t = true) :
    (t.grue_warning_given = false → strContains r "grue" = false →
      (step s a).1.observation = grueWarning ++ "\n\n" ++ r ∧
      (step s a).2.grue_warning_given = true ∧
      (step s a).1.done = t.game_over ∧
      (step s a).2.game_over = t.game_over) ∧
    (t.grue_warning_given = true →
      ((s.moves + 1) % 3 = 0 →
        (step s a).1.observation = grueDeath ∧
        (step s a).1.done = true ∧
        (step s a).2.game_over = true) ∧
      ((s.moves + 1) % 3 ≠ 0 →
        (step s a).1.observation = r ∧
        (step s a).1.done = t.game_over ∧
        (step s a).2.game_over = t.game_over ∧
        (step s a).2.grue_warning_given = true)) := by
  have hm : t.moves = s.moves + 1 := by
    have hf := (frame_processAction { s with moves := s.moves + 1 } (pyLower a)).1
    rw [hpr] at hf
    exact hf
  simp only [step]
  rw [if_neg (not_ceiling hceil)]
  rw [hpr]
  dsimp only
  rw [if_pos hdark]
  constructor
  · intro hw hg
    rw [if_pos (show (!t.grue_warning_given && !(strContains r "grue")) = true by
      rw [hw, hg]; rfl)]
    exact ⟨rfl, rfl, rfl, rfl⟩
  · intro hw
    rw [if_neg (show ¬ ((!t.grue_warning_given && !(strContains r "grue")) = true) by
      rw [hw]; simp)]
    constructor
    · intro h3
      rw [if_pos (show (t.grue_warning_given && (t.moves % 3 == 0)) = true by
        rw [hw, hm, h3]; rfl)]
      exact ⟨rfl, rfl, rfl⟩
    · intro h3
      rw [if_neg (show ¬ ((t.grue_warning_given && (t.moves % 3 == 0)) = true) by
        rw [hw, hm]; simp [h3])]
      exact ⟨rfl, rfl, rfl, hw⟩

/-- Witness for C1: entering the cellar warns (move 5), and the next
step in the dark kills exactly on move 6, a multiple of 3. -/
theorem C1_grue_hazard_witness :
    (step trace_rug_moved "go down").1.observation =
      grueWarning ++ "\n\n" ++ "It is pitch black." ∧
    (step trace_rug_moved "go down").2.grue_warning_given = true ∧
    (step trace_rug_moved "go down").1.done = false ∧
    (step trace_cellar_warned "xyzzy").1.observation = grueDeath ∧
    (step trace_cellar_warned "xyzzy").1.done = true := by
  have h1 := (C1_grue_hazard trace_rug_moved "go down" _ _ rfl (by decide) (by decide)).1
    (by decide) (by decide)
  have h2 := ((C1_grue_hazard trace_cellar_warned "xyzzy" _ _ rfl (by decide) (by decide)).2
    (by decide)).1 (by decide)
  refine ⟨?_, h1.2.1, ?_, h2.1, h2.2.1⟩
  · rw [h1.1]
    decide
  · rw [h1.2.2.1]
    decide

/-- The fall-through of `_process_action`: a command matching no verb
class yields the don't-understand reply and leaves the state untouched. -/
theorem processAction_noclass (s : GameState) (a : String)
    (h : matchesNoVerbClass s a = true) :
    processAction s a =
      ((if (pySplit (pyLower a)).isEmpty then "I don't understand that."
        else "I don't understand that command."), s) := by
  simp only [matchesNoVerbClass] at h
  simp only [processAction]
  rcases hw : pySplit (pyLower a) with _ | ⟨verb, rest⟩
  · simp
  · rw [hw] at h
    dsimp only at h ⊢
    simp only [Bool.and_eq_true, Bool.not_eq_true'] at h
    obtain ⟨⟨⟨⟨⟨⟨⟨⟨⟨⟨⟨⟨h1, h2⟩, h3⟩, h4⟩, h5⟩, h6⟩, h7⟩, h8⟩, h9⟩, h10⟩, h11⟩, h12⟩, h13⟩ := h
    simp only [h1, h2, h3, h4, h5, h6, h7, h8, h9, h10, h11, h12, h13, Bool.false_eq_true,
      if_false]
    simp

/-- C9 (amended): a command matching no verb class yields the fixed
don't-understand reply and no state change beyond the move counter,
provided the ceiling is not hit and the player is not in an unlit dark
room — in the dark, the hazard wrapper may still prepend the grue warning
(setting the warned flag) or substitute the death message (setting the
terminal flag). -/
theorem C9_unrecognized_no_side_effects (s : GameState) (a : String)
    (h : matchesNoVerbClass s (pyLower a) = true)
    (hceil : s.moves + 1 < s.max_moves)
    (hdark : darkNoLight s = false) :
    ((step s a).1.observation = "I don't understand that command." ∨
     (step s a).1.observation = "I don't understand that.") ∧
    (step s a).2 = { s with moves := s.moves + 1 } ∧
    (step s a).1.done = s.game_over ∧
    (step s a).1.score = s.score ∧
    (step s a).1.location = s.current_location := by
  have hpa := processAction_noclass { s with moves := s.moves + 1 } (pyLower a) h
  have hnd : darkNoLight
      (processAction { s with moves := s.moves + 1 } (pyLower a)).2 = false := by
    rw [hpa]
    exact hdark
  have hs := step_not_dark s a hceil hnd
  rw [hpa] at hs
  rw [hs]
  constructor
  · simp only [mkResult]
    cases he : (pySplit (pyLower (pyLower a))).isEmpty
    · left
      simp [he]
    · right
      simp [he]
  · exact ⟨rfl, rfl, rfl, rfl⟩

/-- Counterexample to C9 as stated: in the dark cellar with the warning
already given, the unrecognized command "xyzzy" on a move divisible by 3
returns the death message and sets the terminal flag; and with the
warning still unissued, the same unrecognized command sets the warned
flag — both contradict "returns the fixed don't-understand observation
and leaves the terminal and grue-warning flags as they were". -/
theorem C9_counterexample :
    matchesNoVerbClass trace_cellar_warned (pyLower "xyzzy") = true ∧
    trace_cellar_warned.game_over = false ∧
    (step trace_cellar_warned "xyzzy").1.observation = grueDeath ∧
    (step trace_cellar_warned "xyzzy").1.observation ≠ "I don't understand that command." ∧
    (step trace_cellar_warned "xyzzy").1.observation ≠ "I don't understand that." ∧
    (step trace_cellar_warned "xyzzy").1.done = true ∧
    (step trace_cellar_warned "xyzzy").2.game_over = true ∧
    (step { trace_cellar_warned with grue_warning_given := false }
      "xyzzy").2.grue_warning_given = true := by
  decide

/-- Witness for the amended C9 at the starting square. -/
theorem C9_unrecognized_witness :
    ((step initState "xyzzy").1.observation = "I don't understand that command." ∨
     (step initState "xyzzy").1.observation = "I don't understand that.") ∧
    (step initState "xyzzy").2 = { initState with moves := initState.moves + 1 } :=
  ⟨(C9_unrecognized_no_side_effects initState "xyzzy" (by decide) (by decide) (by decide)).1,
   (C9_unrecognized_no_side_effects initState "xyzzy" (by decide) (by decide) (by decide)).2.1⟩

/-- Counterexample to C10 as stated: from a terminal state at or beyond
the move ceiling, a later step increments the counter and keeps
`done = true` but does NOT dispatch the command — the exceeded-moves
branch (keyed on the move counter, not the terminal flag) returns first,
so `north` cannot change the location there, though the very same command
does move the player below the ceiling. -/
theorem C10_counterexample :
    ({ initState with moves := 1500, game_over := true } : GameState).game_over = true ∧
    (step { initState with moves := 1500, game_over := true } "north").1.observation =
      exceededMessage ∧
    (step { initState with moves := 1500, game_over := true } "north").2.current_location =
      "west_of_house" ∧
    (step { initState with moves := 1500, game_over := true } "north").1.done = true ∧
    (step { initState with moves := 1500, game_over := true } "north").2.moves = 1501 ∧
    (step initState "north").2.current_location = "north_of_house" := by
  decide

end Zork
